import Mathlib

/- Shallow embedding of main.py, a FastAPI wrapper around the AlphaFold
   structure database and the UniProt knowledge base.  JSON values are an
   inductive type; JSON numbers are exact rationals (no handler logic
   depends on float representation).  Upstream HTTP traffic is an oracle:
   a function from the attempt index to either a transport-error text or
   a parsed JSON body. -/

inductive Json where
  | null
  | bool (b : Bool)
  | num (q : Rat)
  | str (s : String)
  | arr (xs : List Json)
  | obj (fields : List (String × Json))

/- Kinds of unhandled Python exceptions that can escape the handlers. -/
inductive PyErr where
  | attributeError (msg : String)
  | keyError (msg : String)
  | indexError (msg : String)
  | typeError (msg : String)
  | validationError (msg : String)
deriving DecidableEq

/- fastapi.HTTPException as raised by the handlers. -/
structure HTTPException where
  status_code : Nat
  detail : String
deriving DecidableEq

/- Outcome of running a handler body: a returned value, a raised
   HTTPException (turned into a response by FastAPI), or an unhandled
   Python exception escaping the handler. -/
inductive HRes (α : Type) where
  | ok (a : α)
  | http (e : HTTPException)
  | crash (e : PyErr)

/- First-match lookup in a JSON object, Python dict semantics. -/
def objGet : List (String × Json) → String → Option Json
  | [], _ => none
  | (k, v) :: rest, key => if k = key then some v else objGet rest key

/- Python d.get(k): None when the key is absent, AttributeError when the
   receiver is not a dict. -/
def pyGetOpt : Json → String → Except PyErr (Option Json)
  | .obj fs, k => .ok (objGet fs k)
  | _, _ => .error (.attributeError "object has no attribute get")

/- Python d.get(k, dflt). -/
def pyGetD (v : Json) (k : String) (dflt : Json) : Except PyErr Json :=
  match v with
  | .obj fs => .ok ((objGet fs k).getD dflt)
  | _ => .error (.attributeError "object has no attribute get")

/- Python x[0]. -/
def pyIndex0 : Json → Except PyErr Json
  | .arr [] => .error (.indexError "list index out of range")
  | .arr (x :: _) => .ok x
  | .str s =>
      match s.data with
      | [] => .error (.indexError "string index out of range")
      | c :: _ => .ok (.str (String.singleton c))
  | .obj _ => .error (.keyError "0")
  | _ => .error (.typeError "object is not subscriptable")

/- Python d[k] with a string key. -/
def pySubscript : Json → String → Except PyErr Json
  | .obj fs, k =>
      match objGet fs k with
      | some v => .ok v
      | none => .error (.keyError k)
  | _, _ => .error (.typeError "object is not subscriptable")

/- Python truthiness of a JSON value. -/
def Json.isTruthy : Json → Bool
  | .null => false
  | .bool b => b
  | .num q => !(decide (q = 0))
  | .str s => !(decide (s = ""))
  | .arr xs => !xs.isEmpty
  | .obj fs => !fs.isEmpty

def truthyOpt : Option Json → Bool
  | none => false
  | some v => v.isTruthy

mutual
/- Python repr of a JSON-like value; container elements print with repr.
   Non-integral numbers print in rational form, a stand-in for the float
   repr, which no handler logic depends on. -/
def pyRepr : Json → String
  | .null => "None"
  | .bool true => "True"
  | .bool false => "False"
  | .num q => if q.den = 1 then toString q.num else toString q
  | .str s => "\x27" ++ s ++ "\x27"
  | .arr xs => "[" ++ pyReprList xs ++ "]"
  | .obj fs => "\x7b" ++ pyReprFields fs ++ "\x7d"

def pyReprList : List Json → String
  | [] => ""
  | [x] => pyRepr x
  | x :: y :: rest => pyRepr x ++ ", " ++ pyReprList (y :: rest)

def pyReprFields : List (String × Json) → String
  | [] => ""
  | [(k, v)] => "\x27" ++ k ++ "\x27: " ++ pyRepr v
  | (k, v) :: f :: rest =>
      "\x27" ++ k ++ "\x27: " ++ pyRepr v ++ ", " ++ pyReprFields (f :: rest)
end

/- Python str(x) as used inside f-strings. -/
def pyStr : Json → String
  | .str s => s
  | v => pyRepr v

def ALPHAFOLD_BASE : String := "https://alphafold.ebi.ac.uk"

def UNIPROT_SEARCH_URL : String := "https://rest.uniprot.org/uniprotkb/search"

def RETRIES : Nat := 2

/- Observable events of the retry helper: attempts are indexed from 0 as
   in the Python loop variable; sleeps carry their duration in seconds. -/
inductive Event where
  | attempt (i : Nat)
  | sleep (secs : Rat)
deriving DecidableEq

def Event.isAttempt : Event → Bool
  | .attempt _ => true
  | .sleep _ => false

/- f-string rendering of last_exc, which starts out as None. -/
def excText : Option String → String
  | none => "None"
  | some e => e

/- Loop body of _get, one iteration per fuel unit; fuel starts at
   RETRIES + 1, matching for attempt in range(RETRIES + 1).  The upstream
   oracle maps the attempt index to the combined outcome of client.get,
   raise_for_status and r.json().  The expect_json False branch is never
   used by the handlers and is not modelled.  The backoff duration
   0.25 * (attempt + 1) seconds appears as the exact rational
   (attempt + 1) / 4. -/
def getFrom (upstream : Nat → Except String Json) (lastExc : Option String) :
    Nat → Nat → List Event × Except HTTPException Json
  | _, 0 => ([], .error ⟨502, "Upstream error: " ++ excText lastExc⟩)
  | attempt, fuel + 1 =>
      match upstream attempt with
      | .ok j => ([Event.attempt attempt], .ok j)
      | .error exc =>
          let rest := getFrom upstream (some exc) (attempt + 1) fuel
          (Event.attempt attempt ::
             Event.sleep (mkRat ((attempt : Int) + 1) 4) :: rest.1,
           rest.2)

/- async def _get, returning the event trace next to the result. -/
def _get (upstream : Nat → Except String Json) : List Event × Except HTTPException Json :=
  getFrom upstream none 0 (RETRIES + 1)

/- The pydantic response model of the prediction route. -/
structure PredictedStructure where
  entryId : String
  uniprotAccession : String
  uniprotId : Option String
  organismScientificName : Option String
  uniprotStart : Option Int
  uniprotEnd : Option Int
  modelCreatedDate : Option String
  pdbUrl : Option String
  cifUrl : Option String
  paeImageUrl : Option String
  pLDDT : Option Rat
deriving DecidableEq

/- pydantic field validation for a required str field. -/
def validateStr : Option Json → Except PyErr String
  | some (.str s) => .ok s
  | _ => .error (.validationError "input should be a valid string")

/- pydantic field validation for an Optional str field with default None. -/
def validateOptStr : Option Json → Except PyErr (Option String)
  | none => .ok none
  | some .null => .ok none
  | some (.str s) => .ok (some s)
  | some _ => .error (.validationError "input should be a valid string")

/- pydantic field validation for an Optional int field; a JSON number is
   accepted when integral.  The lax string-to-number coercions of pydantic
   are not modelled: the upstream payloads carry native JSON numbers. -/
def validateOptInt : Option Json → Except PyErr (Option Int)
  | none => .ok none
  | some .null => .ok none
  | some (.num q) =>
      if q.den = 1 then .ok (some q.num)
      else .error (.validationError "input should be a valid integer")
  | some _ => .error (.validationError "input should be a valid integer")

/- Character-list prefix test, an executable String.startsWith. -/
def charsPrefix : List Char → List Char → Bool
  | [], _ => true
  | _ :: _, [] => false
  | c :: cs, d :: ds => if c = d then charsPrefix cs ds else false

def strStartsWith (s p : String) : Bool :=
  charsPrefix p.data s.data

/- The scheme check of pydantic HttpUrl; finer URL validation and
   normalisation are not modelled, the accepted string is kept verbatim. -/
def isHttpUrl (s : String) : Bool :=
  strStartsWith s "http://" || strStartsWith s "https://"

/- pydantic field validation for an Optional HttpUrl field. -/
def validateOptUrl : Option Json → Except PyErr (Option String)
  | none => .ok none
  | some .null => .ok none
  | some (.str s) =>
      if isHttpUrl s then .ok (some s)
      else .error (.validationError "input should be a valid URL")
  | some _ => .error (.validationError "input should be a valid URL")

/- pydantic field validation for an Optional float field. -/
def validateOptFloat : Option Json → Except PyErr (Option Rat)
  | none => .ok none
  | some .null => .ok none
  | some (.num q) => .ok (some q)
  | some _ => .error (.validationError "input should be a valid number")

/- PredictedStructure.model_validate(item): requires a dict with valid
   entryId and uniprotAccession strings, fills absent optional fields with
   None and ignores unknown keys; any field failure raises a pydantic
   ValidationError, which no handler catches. -/
def model_validate (item : Json) : Except PyErr PredictedStructure :=
  match item with
  | .obj fs =>
      match validateStr (objGet fs "entryId"),
            validateStr (objGet fs "uniprotAccession"),
            validateOptStr (objGet fs "uniprotId"),
            validateOptStr (objGet fs "organismScientificName"),
            validateOptInt (objGet fs "uniprotStart"),
            validateOptInt (objGet fs "uniprotEnd"),
            validateOptStr (objGet fs "modelCreatedDate"),
            validateOptUrl (objGet fs "pdbUrl"),
            validateOptUrl (objGet fs "cifUrl"),
            validateOptUrl (objGet fs "paeImageUrl"),
            validateOptFloat (objGet fs "pLDDT") with
      | .ok e, .ok ua, .ok ui, .ok os, .ok us, .ok ue, .ok md, .ok pu, .ok cu, .ok au, .ok pl =>
          .ok ⟨e, ua, ui, os, us, ue, md, pu, cu, au, pl⟩
      | _, _, _, _, _, _, _, _, _, _, _ =>
          .error (.validationError "validation error for PredictedStructure")
  | _ => .error (.validationError "input should be a valid dictionary")

/- The list comprehension over data: left to right, first exception wins. -/
def mapExcept (f : α → Except ε β) : List α → Except ε (List β)
  | [] => .ok []
  | a :: l =>
      match f a with
      | .error e => .error e
      | .ok b =>
          match mapExcept f l with
          | .error e => .error e
          | .ok bs => .ok (b :: bs)

/- Route /alphafold/prediction, given the outcome of the _get call. -/
def get_prediction (uniprot_id : String) (upstream : Except HTTPException Json) :
    HRes (List PredictedStructure) :=
  match upstream with
  | .error e => .http e
  | .ok data =>
      match data with
      | .arr (x :: rest) =>
          match mapExcept model_validate (x :: rest) with
          | .ok ps => .ok ps
          | .error e => .crash e
      | _ => .http ⟨404, "No prediction found for accession " ++ uniprot_id ++ "."⟩

/- A single quote character, used in the UniProt 404 detail text. -/
def squo : String := "\x27"

/- The interim variables of the UniProt stage of search_by_gene. -/
structure Stage1 where
  accession : Json
  gene_name : Json
  protein_name : Json
  organism : Json

/- Line 96 of main.py. -/
def extract_gene_name (hit : Json) : Except PyErr Json :=
  match pyGetD hit "genes" (Json.arr [Json.obj []]) with
  | .error e => .error e
  | .ok genes =>
      match pyIndex0 genes with
      | .error e => .error e
      | .ok g0 =>
          match pyGetD g0 "geneName" (Json.obj []) with
          | .error e => .error e
          | .ok gn => pyGetD gn "value" (Json.str "")

/- Line 97 of main.py. -/
def extract_protein_name (hit : Json) : Except PyErr Json :=
  match pyGetD hit "proteinDescription" (Json.obj []) with
  | .error e => .error e
  | .ok pd =>
      match pyGetD pd "recommendedName" (Json.obj []) with
      | .error e => .error e
      | .ok rn =>
          match pyGetD rn "fullName" (Json.obj []) with
          | .error e => .error e
          | .ok fn => pyGetD fn "value" (Json.str "")

/- Line 98 of main.py. -/
def extract_organism (hit : Json) : Except PyErr Json :=
  match pyGetD hit "organism" (Json.obj []) with
  | .error e => .error e
  | .ok org => pyGetD org "scientificName" (Json.str "")

/- Lines 92 to 98 of main.py: the results check, the hit extraction and
   the field extraction. -/
def uniprot_stage (query : String) (uni : Json) : HRes Stage1 :=
  match pyGetOpt uni "results" with
  | .error e => .crash e
  | .ok resOpt =>
      if truthyOpt resOpt then
        match pySubscript uni "results" with
        | .error e => .crash e
        | .ok results =>
            match pyIndex0 results with
            | .error e => .crash e
            | .ok hit =>
                match pySubscript hit "primaryAccession" with
                | .error e => .crash e
                | .ok accession =>
                    match extract_gene_name hit with
                    | .error e => .crash e
                    | .ok gene_names =>
                        match extract_protein_name hit with
                        | .error e => .crash e
                        | .ok protein_name =>
                            match extract_organism hit with
                            | .error e => .crash e
                            | .ok organism =>
                                .ok ⟨accession, gene_names, protein_name, organism⟩
      else .http ⟨404, "No UniProt entry found for query " ++ squo ++ query ++ squo ++ "."⟩

/- The shape of the search response dict; absent model fields are null. -/
structure SearchResponse where
  query : String
  uniprot_accession : Json
  gene_name : Json
  protein_name : Json
  organism : Json
  pdbUrl : Json
  cifUrl : Json
  pLDDT : Json
  source : String

/- Lines 103 to 117 of main.py: the emptiness check on the AlphaFold
   payload, taking the first model, and building the response dict. -/
def alphafold_stage (query : String) (s1 : Stage1) (data : Json) : HRes SearchResponse :=
  if data.isTruthy then
    match pyIndex0 data with
    | .error e => .crash e
    | .ok model =>
        match pyGetOpt model "pdbUrl" with
        | .error e => .crash e
        | .ok pdb =>
            match pyGetOpt model "cifUrl" with
            | .error e => .crash e
            | .ok cif =>
                match pyGetOpt model "pLDDT" with
                | .error e => .crash e
                | .ok pl =>
                    .ok ⟨query, s1.accession, s1.gene_name, s1.protein_name, s1.organism,
                         pdb.getD .null, cif.getD .null, pl.getD .null, "AlphaFold DB"⟩
  else .http ⟨404, "No AlphaFold prediction for accession " ++ pyStr s1.accession ++ "."⟩

/- Route /alphafold/search, given the outcome of the UniProt _get call
   and an oracle mapping the stringified accession to the outcome of the
   AlphaFold _get call.  The first component records the upstream
   endpoints called, in order. -/
def search_by_gene (query : String) (uniRes : Except HTTPException Json)
    (predRes : String → Except HTTPException Json) :
    List String × HRes SearchResponse :=
  match uniRes with
  | .error e => ([UNIPROT_SEARCH_URL], .http e)
  | .ok uni =>
      match uniprot_stage query uni with
      | .ok s1 =>
          let acc := pyStr s1.accession
          let pred_url := ALPHAFOLD_BASE ++ "/api/prediction/" ++ acc
          match predRes acc with
          | .error e => ([UNIPROT_SEARCH_URL, pred_url], .http e)
          | .ok data => ([UNIPROT_SEARCH_URL, pred_url], alphafold_stage query s1 data)
      | .http e => ([UNIPROT_SEARCH_URL], .http e)
      | .crash e => ([UNIPROT_SEARCH_URL], .crash e)

/- The prediction route composed with the retry helper. -/
def prediction_endpoint (uniprot_id : String) (upstream : Nat → Except String Json) :
    HRes (List PredictedStructure) :=
  get_prediction uniprot_id (_get upstream).2

/- The search route composed with the retry helper on both calls. -/
def search_endpoint (query : String) (uniUp : Nat → Except String Json)
    (predUp : String → Nat → Except String Json) :
    List String × HRes SearchResponse :=
  search_by_gene query (_get uniUp).2 (fun acc => (_get (predUp acc)).2)

/- Upstream payloads that trip the 404 branch of the prediction route. -/
def EmptyOrNonList : Json → Prop
  | .arr xs => xs = []
  | _ => True

/- Every known field of the upstream item appears verbatim in the
   projection: required strings match exactly, and whenever an optional
   field of the projection is populated, the item holds that exact value. -/
def FieldsCopied (fs : List (String × Json)) (p : PredictedStructure) : Prop :=
  objGet fs "entryId" = some (.str p.entryId) ∧
  objGet fs "uniprotAccession" = some (.str p.uniprotAccession) ∧
  (∀ s, p.uniprotId = some s → objGet fs "uniprotId" = some (.str s)) ∧
  (∀ s, p.organismScientificName = some s →
      objGet fs "organismScientificName" = some (.str s)) ∧
  (∀ n, p.uniprotStart = some n → objGet fs "uniprotStart" = some (.num (n : Rat))) ∧
  (∀ n, p.uniprotEnd = some n → objGet fs "uniprotEnd" = some (.num (n : Rat))) ∧
  (∀ s, p.modelCreatedDate = some s → objGet fs "modelCreatedDate" = some (.str s)) ∧
  (∀ s, p.pdbUrl = some s → objGet fs "pdbUrl" = some (.str s)) ∧
  (∀ s, p.cifUrl = some s → objGet fs "cifUrl" = some (.str s)) ∧
  (∀ s, p.paeImageUrl = some s → objGet fs "paeImageUrl" = some (.str s)) ∧
  (∀ q, p.pLDDT = some q → objGet fs "pLDDT" = some (.num q))

/- The gene-name chain of the hit has a key missing at some level while
   every level above it is a well-shaped container: genes absent, or
   geneName absent in the first gene object, or value absent in the
   geneName object. -/
def MissingGene (fs : List (String × Json)) : Prop :=
  objGet fs "genes" = none ∨
  ∃ gs rest, objGet fs "genes" = some (Json.arr (Json.obj gs :: rest)) ∧
    (objGet gs "geneName" = none ∨
     ∃ ns, objGet gs "geneName" = some (Json.obj ns) ∧ objGet ns "value" = none)

/- The protein-name chain of the hit has a key missing at some level
   while every level above it is a well-shaped object. -/
def MissingProtein (fs : List (String × Json)) : Prop :=
  objGet fs "proteinDescription" = none ∨
  ∃ ps, objGet fs "proteinDescription" = some (Json.obj ps) ∧
    (objGet ps "recommendedName" = none ∨
     ∃ rs, objGet ps "recommendedName" = some (Json.obj rs) ∧
       (objGet rs "fullName" = none ∨
        ∃ fn, objGet rs "fullName" = some (Json.obj fn) ∧ objGet fn "value" = none))

/- The organism chain of the hit has a key missing at some level while
   every level above it is a well-shaped object. -/
def MissingOrganism (fs : List (String × Json)) : Prop :=
  objGet fs "organism" = none ∨
  ∃ os, objGet fs "organism" = some (Json.obj os) ∧ objGet os "scientificName" = none

/- An item of the prediction payload whose required entryId or
   uniprotAccession field is absent or is not a JSON string. -/
def BadRequired (fs : List (String × Json)) : Prop :=
  (∀ s, objGet fs "entryId" ≠ some (Json.str s)) ∨
  (∀ s, objGet fs "uniprotAccession" ≠ some (Json.str s))

/- The outcome shapes the spec allows for the core logic: success, a 404,
   or a 502.  The crash shape is what actually escapes in addition. -/
def KnownOutcome {α : Type} (r : HRes α) : Prop :=
  (∃ a, r = .ok a) ∨ (∃ d, r = .http ⟨404, d⟩) ∨ (∃ d, r = .http ⟨502, d⟩) ∨
  (∃ e, r = .crash e)

/- The handler escaped with an unhandled pydantic ValidationError. -/
def IsValidationCrash {α : Type} : HRes α → Prop
  | .crash (.validationError _) => True
  | _ => False

/- Inversion lemmas for the pydantic field validators. -/

theorem validateStr_ok {o : Option Json} {s : String} (h : validateStr o = .ok s) :
    o = some (.str s) := by
  match o with
  | none => simp [validateStr] at h
  | some v => cases v <;> simp_all [validateStr]

theorem validateOptStr_ok_some {o : Option Json} {s : String}
    (h : validateOptStr o = .ok (some s)) : o = some (.str s) := by
  match o with
  | none => simp [validateOptStr] at h
  | some v => cases v <;> simp_all [validateOptStr]

theorem validateOptUrl_ok_some {o : Option Json} {s : String}
    (h : validateOptUrl o = .ok (some s)) : o = some (.str s) := by
  match o with
  | none => simp [validateOptUrl] at h
  | some v =>
      cases v <;> simp_all [validateOptUrl]
      next t =>
        split at h
        · simp_all
        · simp at h

theorem validateOptFloat_ok_some {o : Option Json} {q : Rat}
    (h : validateOptFloat o = .ok (some q)) : o = some (.num q) := by
  match o with
  | none => simp [validateOptFloat] at h
  | some v => cases v <;> simp_all [validateOptFloat]

theorem validateOptInt_ok_some {o : Option Json} {n : Int}
    (h : validateOptInt o = .ok (some n)) : o = some (.num (n : Rat)) := by
  match o with
  | none => simp [validateOptInt] at h
  | some v =>
      cases v <;> simp_all [validateOptInt]
      next q =>
        split at h
        · next hden =>
            simp only [Except.ok.injEq, Option.some.injEq] at h
            subst h
            rw [Rat.coe_int_num_of_den_eq_one hden]
        · simp at h

/- Structural lemmas about the comprehension. -/

theorem mapExcept_ok_length {α β ε : Type} {f : α → Except ε β} :
    ∀ {xs : List α} {ys : List β}, mapExcept f xs = .ok ys → ys.length = xs.length := by
  intro xs
  induction xs with
  | nil =>
      intro ys h
      simp only [mapExcept, Except.ok.injEq] at h
      subst h
      rfl
  | cons a l ih =>
      intro ys h
      simp only [mapExcept] at h
      cases hfa : f a with
      | error e => rw [hfa] at h; simp at h
      | ok b =>
          rw [hfa] at h
          cases hml : mapExcept f l with
          | error e => rw [hml] at h; simp at h
          | ok bs =>
              rw [hml] at h
              simp only [Except.ok.injEq] at h
              subst h
              simp [ih hml]

theorem mapExcept_ok_get {α β ε : Type} {f : α → Except ε β} :
    ∀ {xs : List α} {ys : List β}, mapExcept f xs = .ok ys →
      ∀ i (hi : i < xs.length) (hp : i < ys.length),
        f (xs.get ⟨i, hi⟩) = .ok (ys.get ⟨i, hp⟩) := by
  intro xs
  induction xs with
  | nil => intro ys h i hi hp; exact absurd hi (by simp)
  | cons a l ih =>
      intro ys h i hi hp
      simp only [mapExcept] at h
      cases hfa : f a with
      | error e => rw [hfa] at h; simp at h
      | ok b =>
          rw [hfa] at h
          cases hml : mapExcept f l with
          | error e => rw [hml] at h; simp at h
          | ok bs =>
              rw [hml] at h
              simp only [Except.ok.injEq] at h
              subst h
              cases i with
              | zero => simpa using hfa
              | succ j =>
                  exact ih hml j (Nat.lt_of_succ_lt_succ hi) (Nat.lt_of_succ_lt_succ hp)

theorem mapExcept_mem_error {α β ε : Type} {f : α → Except ε β} {x : α} :
    ∀ {xs : List α}, x ∈ xs → (∃ e, f x = .error e) →
      ∃ e2, mapExcept f xs = .error e2 := by
  intro xs
  induction xs with
  | nil => intro hmem; exact absurd hmem (by simp)
  | cons a l ih =>
      intro hmem hx
      cases hfa : f a with
      | error e => exact ⟨e, by simp [mapExcept, hfa]⟩
      | ok b =>
          rcases List.mem_cons.mp hmem with rfl | hmem2
          · rcases hx with ⟨e, he⟩
            rw [he] at hfa
            exact absurd hfa (by simp)
          · rcases ih hmem2 hx with ⟨e2, he2⟩
            exact ⟨e2, by simp [mapExcept, hfa, he2]⟩

/- Every error produced by the retry helper carries status 502. -/
theorem getFrom_error_502 (upstream : Nat → Except String Json) :
    ∀ (fuel : Nat) (lastExc : Option String) (attempt : Nat) (e : HTTPException),
      (getFrom upstream lastExc attempt fuel).2 = .error e → e.status_code = 502 := by
  intro fuel
  induction fuel with
  | zero =>
      intro lastExc attempt e h
      simp only [getFrom, Except.error.injEq] at h
      rw [← h]
  | succ f ih =>
      intro lastExc attempt e h
      simp only [getFrom] at h
      cases hu : upstream attempt with
      | ok j => rw [hu] at h; simp at h
      | error exc =>
          rw [hu] at h
          simp only at h
          exact ih (some exc) (attempt + 1) e h

/- A successful validation only happens on a dict and copies the known
   fields verbatim. -/
theorem model_validate_ok {item : Json} {p : PredictedStructure}
    (h : model_validate item = .ok p) :
    ∃ fs, item = Json.obj fs ∧ FieldsCopied fs p := by
  cases item with
  | obj fs =>
      refine ⟨fs, rfl, ?_⟩
      simp only [model_validate] at h
      split at h
      · next he hua hui hos hus hue hmd hpu hcu hau hpl =>
          simp only [Except.ok.injEq] at h
          subst h
          refine ⟨validateStr_ok he, validateStr_ok hua, ?_, ?_, ?_, ?_, ?_, ?_, ?_, ?_, ?_⟩
          · intro s hs; exact validateOptStr_ok_some (hui.trans (congrArg Except.ok hs))
          · intro s hs; exact validateOptStr_ok_some (hos.trans (congrArg Except.ok hs))
          · intro n hn; exact validateOptInt_ok_some (hus.trans (congrArg Except.ok hn))
          · intro n hn; exact validateOptInt_ok_some (hue.trans (congrArg Except.ok hn))
          · intro s hs; exact validateOptStr_ok_some (hmd.trans (congrArg Except.ok hs))
          · intro s hs; exact validateOptUrl_ok_some (hpu.trans (congrArg Except.ok hs))
          · intro s hs; exact validateOptUrl_ok_some (hcu.trans (congrArg Except.ok hs))
          · intro s hs; exact validateOptUrl_ok_some (hau.trans (congrArg Except.ok hs))
          · intro q hq; exact validateOptFloat_ok_some (hpl.trans (congrArg Except.ok hq))
      · simp at h
  | null => simp [model_validate] at h
  | bool b => simp [model_validate] at h
  | num q => simp [model_validate] at h
  | str s => simp [model_validate] at h
  | arr xs => simp [model_validate] at h

/- The only HTTPException raised inside the UniProt stage is the 404. -/
theorem uniprot_stage_http {query : String} {uni : Json} {e : HTTPException}
    (h : uniprot_stage query uni = .http e) : e.status_code = 404 := by
  unfold uniprot_stage at h
  repeat' split at h
  all_goals first
    | exact HRes.noConfusion h
    | (injection h with h2; rw [← h2])

/- The only HTTPException raised inside the AlphaFold stage is the 404. -/
theorem alphafold_stage_http {query : String} {s1 : Stage1} {data : Json}
    {e : HTTPException} (h : alphafold_stage query s1 data = .http e) :
    e.status_code = 404 := by
  unfold alphafold_stage at h
  repeat' split at h
  all_goals first
    | exact HRes.noConfusion h
    | (injection h with h2; rw [← h2])

/-- C1: for an upstream payload that is a nonempty list whose items all
validate, the prediction handler returns the projected sequence with the
same length and order as the payload, and each projection copies the
known fields of its item verbatim, in the sense of FieldsCopied. -/
theorem C1_prediction_preserves_order_and_fields (uniprot_id : String)
    (xs : List Json) (ps : List PredictedStructure) (hne : xs ≠ [])
    (hok : mapExcept model_validate xs = .ok ps) :
    get_prediction uniprot_id (.ok (.arr xs)) = .ok ps ∧
    ps.length = xs.length ∧
    ∀ i (hi : i < xs.length) (hp : i < ps.length),
      ∃ fs, xs.get ⟨i, hi⟩ = Json.obj fs ∧ FieldsCopied fs (ps.get ⟨i, hp⟩) := by
  refine ⟨?_, mapExcept_ok_length hok, ?_⟩
  · match xs, hne with
    | x :: rest, _ =>
        simp only [get_prediction]
        rw [hok]
  · intro i hi hp
    exact model_validate_ok (mapExcept_ok_get hok i hi hp)

/-- C1 witness: a concrete two-item payload maps to two projections in
upstream order with the known fields copied. -/
theorem C1_witness :
    get_prediction "P31645" (.ok (.arr
      [Json.obj [("entryId", Json.str "AF-P31645-F1"),
                 ("uniprotAccession", Json.str "P31645"),
                 ("uniprotStart", Json.num 1),
                 ("pdbUrl", Json.str "https://alphafold.ebi.ac.uk/files/AF-P31645-F1-model_v4.pdb"),
                 ("pLDDT", Json.num (mkRat 925 10))],
       Json.obj [("entryId", Json.str "AF-P31645-F2"),
                 ("uniprotAccession", Json.str "P31645")]])) =
    .ok [⟨"AF-P31645-F1", "P31645", none, none, some 1, none, none,
          some "https://alphafold.ebi.ac.uk/files/AF-P31645-F1-model_v4.pdb", none, none,
          some (mkRat 925 10)⟩,
         ⟨"AF-P31645-F2", "P31645", none, none, none, none, none, none, none, none, none⟩] :=
  (C1_prediction_preserves_order_and_fields "P31645"
    [Json.obj [("entryId", Json.str "AF-P31645-F1"),
               ("uniprotAccession", Json.str "P31645"),
               ("uniprotStart", Json.num 1),
               ("pdbUrl", Json.str "https://alphafold.ebi.ac.uk/files/AF-P31645-F1-model_v4.pdb"),
               ("pLDDT", Json.num (mkRat 925 10))],
     Json.obj [("entryId", Json.str "AF-P31645-F2"),
               ("uniprotAccession", Json.str "P31645")]]
    [⟨"AF-P31645-F1", "P31645", none, none, some 1, none, none,
      some "https://alphafold.ebi.ac.uk/files/AF-P31645-F1-model_v4.pdb", none, none,
      some (mkRat 925 10)⟩,
     ⟨"AF-P31645-F2", "P31645", none, none, none, none, none, none, none, none, none⟩]
    (by simp) rfl).1

/-- C2: on an empty-list or non-list upstream payload the prediction
handler raises HTTP 404 and the detail text contains the accession. -/
theorem C2_prediction_404_empty_or_nonlist (uniprot_id : String) (data : Json)
    (h : EmptyOrNonList data) :
    get_prediction uniprot_id (.ok data) =
      .http ⟨404, "No prediction found for accession " ++ uniprot_id ++ "."⟩ ∧
    ∃ pre post,
      "No prediction found for accession " ++ uniprot_id ++ "." =
        pre ++ uniprot_id ++ post := by
  constructor
  · cases data with
    | arr xs =>
        cases xs with
        | nil => rfl
        | cons y ys => exact absurd h (by simp [EmptyOrNonList])
    | null => rfl
    | bool b => rfl
    | num q => rfl
    | str s => rfl
    | obj fs => rfl
  · exact ⟨"No prediction found for accession ", ".", rfl⟩

/-- C2 witness: the empty upstream list yields the 404 for the requested
accession. -/
theorem C2_witness :
    get_prediction "P99999" (.ok (.arr [])) =
      .http ⟨404, "No prediction found for accession " ++ "P99999" ++ "."⟩ :=
  (C2_prediction_404_empty_or_nonlist "P99999" (.arr []) rfl).1

/-- C3: when attempts 0, 1 and 2 all fail, the fetch helper makes exactly
three attempts in total and then fails with HTTP 502, the detail
embedding the last underlying error text. -/
theorem C3_get_exhaustion_three_attempts_502 (upstream : Nat → Except String Json)
    (e0 e1 e2 : String) (h0 : upstream 0 = .error e0)
    (h1 : upstream 1 = .error e1) (h2 : upstream 2 = .error e2) :
    ((_get upstream).1.countP Event.isAttempt = 3) ∧
    (_get upstream).2 = .error ⟨502, "Upstream error: " ++ e2⟩ ∧
    ∃ pre, "Upstream error: " ++ e2 = pre ++ e2 := by
  have hrun : _get upstream =
      ([Event.attempt 0, Event.sleep (mkRat 1 4), Event.attempt 1,
        Event.sleep (mkRat 2 4), Event.attempt 2, Event.sleep (mkRat 3 4)],
       .error ⟨502, "Upstream error: " ++ e2⟩) := by
    simp [_get, RETRIES, getFrom, h0, h1, h2, excText]
  refine ⟨?_, ?_, ⟨"Upstream error: ", rfl⟩⟩
  · rw [hrun]
    show List.countP Event.isAttempt
        [Event.attempt 0, Event.sleep (mkRat 1 4), Event.attempt 1,
         Event.sleep (mkRat 2 4), Event.attempt 2, Event.sleep (mkRat 3 4)] = 3
    decide
  · rw [hrun]

/-- C3 witness: three concrete consecutive failures give three attempts
and the 502 embedding the last error. -/
theorem C3_witness :
    ((_get (fun i => .error ("failure " ++ toString i))).1.countP Event.isAttempt = 3) ∧
    (_get (fun i => .error ("failure " ++ toString i))).2 =
      .error ⟨502, "Upstream error: " ++ "failure 2"⟩ :=
  ⟨(C3_get_exhaustion_three_attempts_502 (fun i => .error ("failure " ++ toString i))
      "failure 0" "failure 1" "failure 2" rfl rfl rfl).1,
   (C3_get_exhaustion_three_attempts_502 (fun i => .error ("failure " ++ toString i))
      "failure 0" "failure 1" "failure 2" rfl rfl rfl).2.1⟩

/-- C4 counterexample: with a transport failure on every attempt the
trace ends with a 0.75 second sleep occurring after the third and final
attempt, so a backoff wait does occur when no further retry follows,
contradicting the claim that no wait follows the final attempt. -/
theorem C4_cex_wait_after_final_attempt :
    (_get (fun _ => .error "connection timed out")).1 =
      [Event.attempt 0, Event.sleep (mkRat 1 4), Event.attempt 1,
       Event.sleep (mkRat 2 4), Event.attempt 2, Event.sleep (mkRat 3 4)] ∧
    (_get (fun _ => .error "connection timed out")).1.getLast? =
      some (Event.sleep (mkRat 3 4)) := by
  constructor
  · decide
  · decide

/-- C4 amended: the backoff of 0.25 times the attempt number in seconds
runs after every failed attempt, including the final one: the trace waits
0.25 s before attempt 2 and 0.5 s before attempt 3 as claimed, but also
waits 0.75 s after the third and final failed attempt, before the 502 is
raised. -/
theorem C4_backoff_after_every_failed_attempt (upstream : Nat → Except String Json)
    (e0 e1 e2 : String) (h0 : upstream 0 = .error e0)
    (h1 : upstream 1 = .error e1) (h2 : upstream 2 = .error e2) :
    (_get upstream).1 =
      [Event.attempt 0, Event.sleep (mkRat 1 4), Event.attempt 1,
       Event.sleep (mkRat 2 4), Event.attempt 2, Event.sleep (mkRat 3 4)] := by
  simp [_get, RETRIES, getFrom, h0, h1, h2]

/-- C4 witness: the amended trace at a concrete always-failing upstream. -/
theorem C4_witness :
    (_get (fun _ => .error "connection refused")).1 =
      [Event.attempt 0, Event.sleep (mkRat 1 4), Event.attempt 1,
       Event.sleep (mkRat 2 4), Event.attempt 2, Event.sleep (mkRat 3 4)] :=
  C4_backoff_after_every_failed_attempt (fun _ => .error "connection refused")
    "connection refused" "connection refused" "connection refused" rfl rfl rfl

/-- C5: when the UniProt payload is a dict whose results value is falsy
(absent, null, or an empty container), the search handler raises HTTP 404
with a detail naming the query, and the AlphaFold structure endpoint is
never called: the only recorded outbound call is the UniProt search URL. -/
theorem C5_search_404_on_no_results_and_no_structure_call (query : String)
    (fs : List (String × Json)) (predRes : String → Except HTTPException Json)
    (h : truthyOpt (objGet fs "results") = false) :
    search_by_gene query (.ok (.obj fs)) predRes =
      ([UNIPROT_SEARCH_URL],
       .http ⟨404, "No UniProt entry found for query " ++ squo ++ query ++ squo ++ "."⟩) ∧
    (∃ pre post,
      "No UniProt entry found for query " ++ squo ++ query ++ squo ++ "." =
        pre ++ query ++ post) ∧
    ∀ c ∈ (search_by_gene query (.ok (.obj fs)) predRes).1,
      strStartsWith c ALPHAFOLD_BASE = false := by
  have hmain : search_by_gene query (.ok (.obj fs)) predRes =
      ([UNIPROT_SEARCH_URL],
       .http ⟨404, "No UniProt entry found for query " ++ squo ++ query ++ squo ++ "."⟩) := by
    simp [search_by_gene, uniprot_stage, pyGetOpt, h]
  refine ⟨hmain, ⟨"No UniProt entry found for query " ++ squo, squo ++ ".", ?_⟩, ?_⟩
  · simp [String.append_assoc]
  · rw [hmain]
    intro c hc
    simp only [List.mem_singleton] at hc
    subst hc
    decide

/-- C5 witness: an empty results list on a concrete query gives the 404
naming the query and a single outbound call. -/
theorem C5_witness :
    search_by_gene "BRCA1" (.ok (.obj [("results", Json.arr [])]))
      (fun _ => .ok Json.null) =
    ([UNIPROT_SEARCH_URL],
     .http ⟨404, "No UniProt entry found for query " ++ squo ++ "BRCA1" ++ squo ++ "."⟩) :=
  (C5_search_404_on_no_results_and_no_structure_call "BRCA1" [("results", Json.arr [])]
    (fun _ => .ok Json.null) rfl).1

/-- C6 counterexample: a knowledge-base record with a present but empty
genes list crashes the handler with an unhandled IndexError instead of
degrading to an empty string, refuting the claim for present-but-empty
containers. -/
theorem C6_cex_present_but_empty_genes_crashes :
    search_by_gene "SLC6A4"
      (.ok (Json.obj [("results", Json.arr [Json.obj
          [("primaryAccession", Json.str "P31645"), ("genes", Json.arr [])]])]))
      (fun _ => .error ⟨502, "unused"⟩) =
    ([UNIPROT_SEARCH_URL], .crash (.indexError "list index out of range")) := rfl

/-- C6 amended: a key missing at any level of the gene-name, protein-name
or organism chains, with the levels above it well-shaped containers,
degrades to an empty string without any failure; present-but-malformed
containers, such as an empty genes list, are not covered and can crash. -/
theorem C6_missing_nested_fields_degrade_to_empty (fs : List (String × Json)) :
    (MissingGene fs → extract_gene_name (Json.obj fs) = .ok (Json.str "")) ∧
    (MissingProtein fs → extract_protein_name (Json.obj fs) = .ok (Json.str "")) ∧
    (MissingOrganism fs → extract_organism (Json.obj fs) = .ok (Json.str "")) := by
  refine ⟨?_, ?_, ?_⟩
  · intro h
    rcases h with h | ⟨gs, rest, hg, h2⟩
    · simp [extract_gene_name, pyGetD, pyIndex0, objGet, h]
    · rcases h2 with h2 | ⟨ns, hn, hv⟩
      · simp [extract_gene_name, pyGetD, pyIndex0, objGet, hg, h2]
      · simp [extract_gene_name, pyGetD, pyIndex0, objGet, hg, hn, hv]
  · intro h
    rcases h with h | ⟨ps, hp, h2⟩
    · simp [extract_protein_name, pyGetD, objGet, h]
    · rcases h2 with h2 | ⟨rs, hr, h3⟩
      · simp [extract_protein_name, pyGetD, objGet, hp, h2]
      · rcases h3 with h3 | ⟨fn, hf, hv⟩
        · simp [extract_protein_name, pyGetD, objGet, hp, hr, h3]
        · simp [extract_protein_name, pyGetD, objGet, hp, hr, hf, hv]
  · intro h
    rcases h with h | ⟨os, ho, hv⟩
    · simp [extract_organism, pyGetD, objGet, h]
    · simp [extract_organism, pyGetD, objGet, ho, hv]

/-- C6 witness: a hit with no genes, proteinDescription or organism keys
extracts an empty string for all three display fields. -/
theorem C6_witness :
    extract_gene_name (Json.obj [("primaryAccession", Json.str "Q8TDU6")]) =
      .ok (Json.str "") ∧
    extract_protein_name (Json.obj [("primaryAccession", Json.str "Q8TDU6")]) =
      .ok (Json.str "") ∧
    extract_organism (Json.obj [("primaryAccession", Json.str "Q8TDU6")]) =
      .ok (Json.str "") :=
  ⟨(C6_missing_nested_fields_degrade_to_empty [("primaryAccession", Json.str "Q8TDU6")]).1
      (Or.inl rfl),
   (C6_missing_nested_fields_degrade_to_empty [("primaryAccession", Json.str "Q8TDU6")]).2.1
      (Or.inl rfl),
   (C6_missing_nested_fields_degrade_to_empty [("primaryAccession", Json.str "Q8TDU6")]).2.2
      (Or.inl rfl)⟩

/-- C7: once the UniProt stage has resolved a hit, the second stage
raises HTTP 404 naming the resolved accession when the AlphaFold result
is empty, and otherwise its outcome depends only on the first model of
the returned sequence. -/
theorem C7_search_second_stage_404_or_first_model (query : String) (uni : Json)
    (s1 : Stage1) (predRes : String → Except HTTPException Json)
    (h1 : uniprot_stage query uni = .ok s1) :
    (∀ data, predRes (pyStr s1.accession) = .ok data → data.isTruthy = false →
       search_by_gene query (.ok uni) predRes =
         ([UNIPROT_SEARCH_URL, ALPHAFOLD_BASE ++ "/api/prediction/" ++ pyStr s1.accession],
          .http ⟨404, "No AlphaFold prediction for accession " ++ pyStr s1.accession ++ "."⟩) ∧
       ∃ pre post,
         "No AlphaFold prediction for accession " ++ pyStr s1.accession ++ "." =
           pre ++ pyStr s1.accession ++ post) ∧
    (∀ m rest, predRes (pyStr s1.accession) = .ok (.arr (m :: rest)) →
       (search_by_gene query (.ok uni) predRes).2 = alphafold_stage query s1 (.arr [m])) := by
  constructor
  · intro data hd hfalsy
    constructor
    · simp [search_by_gene, h1, hd, alphafold_stage, hfalsy]
    · exact ⟨"No AlphaFold prediction for accession ", ".", rfl⟩
  · intro m rest hd
    simp [search_by_gene, h1, hd, alphafold_stage, pyIndex0, Json.isTruthy]

/-- C7 witness: with a resolved accession and an empty AlphaFold payload
the search response is the 404 naming the accession. -/
theorem C7_witness :
    search_by_gene "SLC6A4"
      (.ok (Json.obj [("results",
         Json.arr [Json.obj [("primaryAccession", Json.str "P31645")]])]))
      (fun _ => .ok (Json.arr [])) =
    ([UNIPROT_SEARCH_URL,
      ALPHAFOLD_BASE ++ "/api/prediction/" ++ pyStr (Json.str "P31645")],
     .http ⟨404, "No AlphaFold prediction for accession " ++
        pyStr (Json.str "P31645") ++ "."⟩) :=
  ((C7_search_second_stage_404_or_first_model "SLC6A4"
      (Json.obj [("results", Json.arr [Json.obj [("primaryAccession", Json.str "P31645")]])])
      ⟨Json.str "P31645", Json.str "", Json.str "", Json.str ""⟩
      (fun _ => .ok (Json.arr [])) rfl).1 (Json.arr []) rfl rfl).1

/-- C8: on success the search handler returns the composite of the
query, resolved accession, gene name, protein name, organism, the first
model pdbUrl, cifUrl and pLDDT each defaulting to null when absent and
passed through verbatim when present, and the fixed source label. -/
theorem C8_search_success_composite (query : String) (uni : Json) (s1 : Stage1)
    (predRes : String → Except HTTPException Json) (mf : List (String × Json))
    (rest : List Json) (h1 : uniprot_stage query uni = .ok s1)
    (hp : predRes (pyStr s1.accession) = .ok (.arr (Json.obj mf :: rest))) :
    (search_by_gene query (.ok uni) predRes).2 =
      .ok ⟨query, s1.accession, s1.gene_name, s1.protein_name, s1.organism,
           (objGet mf "pdbUrl").getD Json.null, (objGet mf "cifUrl").getD Json.null,
           (objGet mf "pLDDT").getD Json.null, "AlphaFold DB"⟩ ∧
    (objGet mf "pdbUrl" = none → (objGet mf "pdbUrl").getD Json.null = Json.null) ∧
    (∀ v, objGet mf "pdbUrl" = some v → (objGet mf "pdbUrl").getD Json.null = v) ∧
    (objGet mf "cifUrl" = none → (objGet mf "cifUrl").getD Json.null = Json.null) ∧
    (∀ v, objGet mf "cifUrl" = some v → (objGet mf "cifUrl").getD Json.null = v) ∧
    (objGet mf "pLDDT" = none → (objGet mf "pLDDT").getD Json.null = Json.null) ∧
    (∀ v, objGet mf "pLDDT" = some v → (objGet mf "pLDDT").getD Json.null = v) := by
  refine ⟨?_, ?_, ?_, ?_, ?_, ?_, ?_⟩
  · simp [search_by_gene, h1, hp, alphafold_stage, pyIndex0, pyGetOpt, Json.isTruthy]
  · intro h; simp [h]
  · intro v h; simp [h]
  · intro h; simp [h]
  · intro v h; simp [h]
  · intro h; simp [h]
  · intro v h; simp [h]

/-- C8 witness: the end-to-end scenario of the spec with one model
carrying only a pdbUrl; cifUrl and pLDDT come back null. -/
theorem C8_witness :
    (search_by_gene "SLC6A4"
      (.ok (Json.obj [("results",
         Json.arr [Json.obj [("primaryAccession", Json.str "P31645")]])]))
      (fun _ => .ok (Json.arr [Json.obj [("pdbUrl",
         Json.str "https://alphafold.ebi.ac.uk/files/AF-P31645-F1-model_v4.pdb")]]))).2 =
    .ok ⟨"SLC6A4", Json.str "P31645", Json.str "", Json.str "", Json.str "",
         Json.str "https://alphafold.ebi.ac.uk/files/AF-P31645-F1-model_v4.pdb",
         Json.null, Json.null, "AlphaFold DB"⟩ :=
  (C8_search_success_composite "SLC6A4"
    (Json.obj [("results", Json.arr [Json.obj [("primaryAccession", Json.str "P31645")]])])
    ⟨Json.str "P31645", Json.str "", Json.str "", Json.str ""⟩
    (fun _ => .ok (Json.arr [Json.obj [("pdbUrl",
       Json.str "https://alphafold.ebi.ac.uk/files/AF-P31645-F1-model_v4.pdb")]]))
    [("pdbUrl", Json.str "https://alphafold.ebi.ac.uk/files/AF-P31645-F1-model_v4.pdb")]
    [] rfl rfl).1

/- Outcome coverage of the prediction handler for an arbitrary fetch
   outcome whose errors are all 502. -/
theorem get_prediction_outcome (uid : String) (up : Except HTTPException Json)
    (h502 : ∀ e, up = .error e → e.status_code = 502) :
    KnownOutcome (get_prediction uid up) := by
  cases up with
  | error e =>
      right; right; left
      refine ⟨e.detail, ?_⟩
      have h2 := h502 e rfl
      cases e with
      | mk sc d =>
          simp only [HTTPException.status_code] at h2
          subst h2
          rfl
  | ok data =>
      cases data with
      | arr xs =>
          cases xs with
          | nil => right; left; exact ⟨_, rfl⟩
          | cons x rest =>
              cases hm : mapExcept model_validate (x :: rest) with
              | ok ps => left; exact ⟨ps, by simp [get_prediction, hm]⟩
              | error e => right; right; right; exact ⟨e, by simp [get_prediction, hm]⟩
      | null => right; left; exact ⟨_, rfl⟩
      | bool b => right; left; exact ⟨_, rfl⟩
      | num q => right; left; exact ⟨_, rfl⟩
      | str s => right; left; exact ⟨_, rfl⟩
      | obj gs => right; left; exact ⟨_, rfl⟩

/- Outcome coverage of the search handler for arbitrary fetch outcomes
   whose errors are all 502. -/
theorem search_by_gene_outcome (query : String) (uniRes : Except HTTPException Json)
    (predRes : String → Except HTTPException Json)
    (hu : ∀ e, uniRes = .error e → e.status_code = 502)
    (hp : ∀ acc e, predRes acc = .error e → e.status_code = 502) :
    KnownOutcome (search_by_gene query uniRes predRes).2 := by
  cases uniRes with
  | error e =>
      right; right; left
      refine ⟨e.detail, ?_⟩
      have h2 := hu e rfl
      cases e with
      | mk sc d =>
          simp only [HTTPException.status_code] at h2
          subst h2
          rfl
  | ok uni =>
      cases hs : uniprot_stage query uni with
      | http e =>
          right; left
          refine ⟨e.detail, ?_⟩
          have h404 := uniprot_stage_http hs
          cases e with
          | mk sc d =>
              simp only [HTTPException.status_code] at h404
              subst h404
              simp [search_by_gene, hs]
      | crash e =>
          right; right; right
          exact ⟨e, by simp [search_by_gene, hs]⟩
      | ok s1 =>
          cases hpred : predRes (pyStr s1.accession) with
          | error e =>
              right; right; left
              refine ⟨e.detail, ?_⟩
              have h2 := hp (pyStr s1.accession) e hpred
              cases e with
              | mk sc d =>
                  simp only [HTTPException.status_code] at h2
                  subst h2
                  simp [search_by_gene, hs, hpred]
          | ok data =>
              cases ha : alphafold_stage query s1 data with
              | ok r =>
                  left
                  exact ⟨r, by simp [search_by_gene, hs, hpred, ha]⟩
              | crash e =>
                  right; right; right
                  exact ⟨e, by simp [search_by_gene, hs, hpred, ha]⟩
              | http e =>
                  right; left
                  refine ⟨e.detail, ?_⟩
                  have h404 := alphafold_stage_http ha
                  cases e with
                  | mk sc d =>
                      simp only [HTTPException.status_code] at h404
                      subst h404
                      simp [search_by_gene, hs, hpred, ha]

/- The error reported by the comprehension comes from some element. -/
theorem mapExcept_error_mem {α β ε : Type} {f : α → Except ε β} :
    ∀ {xs : List α} {e : ε}, mapExcept f xs = .error e →
      ∃ x, x ∈ xs ∧ f x = .error e := by
  intro xs
  induction xs with
  | nil => intro e h; simp [mapExcept] at h
  | cons a l ih =>
      intro e h
      simp only [mapExcept] at h
      cases hfa : f a with
      | error e2 =>
          rw [hfa] at h
          simp only [Except.error.injEq] at h
          subst h
          exact ⟨a, List.mem_cons_self a l, hfa⟩
      | ok b =>
          rw [hfa] at h
          cases hml : mapExcept f l with
          | error e2 =>
              rw [hml] at h
              simp only [Except.error.injEq] at h
              subst h
              rcases ih hml with ⟨x, hx, hfx⟩
              exact ⟨x, List.mem_cons_of_mem a hx, hfx⟩
          | ok bs => rw [hml] at h; simp at h

/- Every failure of the model validation is a pydantic ValidationError. -/
theorem model_validate_error_shape {item : Json} {e : PyErr}
    (h : model_validate item = .error e) : ∃ msg, e = .validationError msg := by
  cases item with
  | obj fs =>
      simp only [model_validate] at h
      split at h
      · simp at h
      · simp only [Except.error.injEq] at h
        exact ⟨_, h.symm⟩
  | null => simp only [model_validate, Except.error.injEq] at h; exact ⟨_, h.symm⟩
  | bool b => simp only [model_validate, Except.error.injEq] at h; exact ⟨_, h.symm⟩
  | num q => simp only [model_validate, Except.error.injEq] at h; exact ⟨_, h.symm⟩
  | str s => simp only [model_validate, Except.error.injEq] at h; exact ⟨_, h.symm⟩
  | arr ys => simp only [model_validate, Except.error.injEq] at h; exact ⟨_, h.symm⟩

/- A bad required field makes the validation fail. -/
theorem model_validate_error_of_bad {fs : List (String × Json)} (h : BadRequired fs) :
    ∃ e, model_validate (Json.obj fs) = .error e := by
  have hbad2 : (∃ e, validateStr (objGet fs "entryId") = .error e) ∨
      (∃ e, validateStr (objGet fs "uniprotAccession") = .error e) := by
    rcases h with hb | hb
    · left
      cases hv : validateStr (objGet fs "entryId") with
      | ok s => exact absurd (validateStr_ok hv) (hb s)
      | error e => exact ⟨e, rfl⟩
    · right
      cases hv : validateStr (objGet fs "uniprotAccession") with
      | ok s => exact absurd (validateStr_ok hv) (hb s)
      | error e => exact ⟨e, rfl⟩
  simp only [model_validate]
  split
  · next he hua hui hos hus hue hmd hpu hcu hau hpl =>
      rcases hbad2 with ⟨e, hv⟩ | ⟨e, hv⟩
      · rw [hv] at he; exact absurd he (by simp)
      · rw [hv] at hua; exact absurd hua (by simp)
  · exact ⟨_, rfl⟩

/-- C9 counterexample: a well-formed request whose upstream payload is a
non-empty list with an invalid item makes the core logic escape with an
unhandled ValidationError, an outcome that is neither success nor a 404
nor a 502, refuting the claim for arbitrary upstream response shapes. -/
theorem C9_cex_unhandled_validation_escape :
    prediction_endpoint "P12345" (fun _ => .ok (.arr [Json.obj []])) =
      .crash (.validationError "validation error for PredictedStructure") := rfl

/-- C9 amended: for every inbound request and upstream behavior, the core
logic produces success, a 404 NotFound, a 502 UpstreamError, or an
unhandled Python exception escaping the handler; HTTP statuses other than
404 and 502 are impossible, but unhandled escapes do occur for malformed
upstream payloads. -/
theorem C9_outcome_coverage (uniprot_id query : String)
    (upstream uniUp : Nat → Except String Json)
    (predUp : String → Nat → Except String Json) :
    KnownOutcome (prediction_endpoint uniprot_id upstream) ∧
    KnownOutcome (search_endpoint query uniUp predUp).2 := by
  constructor
  · exact get_prediction_outcome uniprot_id (_get upstream).2
      (fun e he => getFrom_error_502 upstream (RETRIES + 1) none 0 e he)
  · exact search_by_gene_outcome query (_get uniUp).2 (fun acc => (_get (predUp acc)).2)
      (fun e he => getFrom_error_502 uniUp (RETRIES + 1) none 0 e he)
      (fun acc e he => getFrom_error_502 (predUp acc) (RETRIES + 1) none 0 e he)

/-- C10: a non-empty upstream list containing an item whose required
entryId or uniprotAccession field is absent or not a string makes the
prediction handler escape with an unhandled pydantic ValidationError,
rather than return projections with absent optionals or a 404 or 502. -/
theorem C10_bad_required_field_crashes (uniprot_id : String) (xs : List Json)
    (fs : List (String × Json)) (hmem : Json.obj fs ∈ xs) (hbad : BadRequired fs) :
    IsValidationCrash (get_prediction uniprot_id (.ok (.arr xs))) := by
  rcases mapExcept_mem_error hmem (model_validate_error_of_bad hbad) with ⟨e2, he2⟩
  rcases mapExcept_error_mem he2 with ⟨x, hx, hfx⟩
  rcases model_validate_error_shape hfx with ⟨msg, rfl⟩
  cases xs with
  | nil => cases hmem
  | cons x0 rest => simp [get_prediction, he2, IsValidationCrash]

/-- C10 witness: a single-item payload lacking entryId crashes with a
ValidationError. -/
theorem C10_witness :
    IsValidationCrash (get_prediction "P31645"
      (.ok (.arr [Json.obj [("uniprotAccession", Json.str "P31645")]]))) :=
  C10_bad_required_field_crashes "P31645"
    [Json.obj [("uniprotAccession", Json.str "P31645")]]
    [("uniprotAccession", Json.str "P31645")] (by simp)
    (Or.inl (fun s h => by simp [objGet] at h))
